import Mathlib

/-!
Verification of the ThunderKittens TMA subsystem (src/ops/warp/memory/tma.cuh).

The development shallow-embeds the descriptor-construction logic
(`create_tensor_map`), the per-tile coordinate derivation used by `prefetch`,
`store_async` and `load_async`, the single-lane issuance guards, and the
barrier / store-group helpers, and proves the specified properties about them.
Machine integers are modelled as `Nat`: all quantities involved (shapes,
strides, coordinates, byte counts) are non-negative and far below any
overflow boundary in the scenarios the specification covers.
-/

namespace ThunderKittens

/-- Layout tag of a shared tile (`ducks::st_layout`).  The four tags accepted
by the TMA subsystem, plus a representative constructor for any other layout
the external tile type system may supply (such tiles are not TMA-transferable
and are rejected by the concepts in `tma.cuh`). -/
inductive STLayout where
  | naive
  | tmaSwizzle
  | wgmmaRow0b
  | wgmmaColT0b
  | otherLayout (n : Nat)
deriving DecidableEq, Repr

/-- Compile-time metadata of a shared tile type `ST`: `rows`, `cols`, `width`
(the number of 32-byte swizzle granules spanned by one row) and the layout
tag. -/
structure STDesc where
  rows : Nat
  cols : Nat
  width : Nat
  layout : STLayout
deriving DecidableEq, Repr

/-- Concept `detail::st_type_2d_tma_layout`: naive or tma_swizzle layout. -/
def st_type_2d_tma_layout (s : STDesc) : Bool :=
  decide (s.layout = .naive) || decide (s.layout = .tmaSwizzle)

/-- Concept `detail::st_type_wgmma_row_layout`: wgmma_row_0b layout. -/
def st_type_wgmma_row_layout (s : STDesc) : Bool :=
  decide (s.layout = .wgmmaRow0b)

/-- Concept `detail::st_type_wgmma_col_t_layout`: wgmma_col_t_0b layout. -/
def st_type_wgmma_col_t_layout (s : STDesc) : Bool :=
  decide (s.layout = .wgmmaColT0b)

/-- Concept `detail::st_type_tma_layout`: union of the three transferable
layout classes. -/
def st_type_tma_layout (s : STDesc) : Bool :=
  st_type_2d_tma_layout s || st_type_wgmma_row_layout s || st_type_wgmma_col_t_layout s

/-- The `CUtensorMapSwizzle` enumeration, together with the out-of-range value
`CUtensorMapSwizzle(-1)` that `create_tensor_map` produces for a width outside
{1, 2, 4}. -/
inductive CUtensorMapSwizzle where
  | swizzleNone
  | swizzle32B
  | swizzle64B
  | swizzle128B
  | invalid
deriving DecidableEq, Repr

/-- `sizeof(bf16)` in bytes. -/
def sizeof_bf16 : Nat := 2

/-- `tma_swizzle_from_size` in `create_tensor_map`: the swizzle mode a
swizzled layout of this width would use (`CUtensorMapSwizzle(-1)` when the
width is not 1, 2 or 4). -/
def tma_swizzle_from_size (s : STDesc) : CUtensorMapSwizzle :=
  if s.width = 1 then .swizzle32B
  else if s.width = 2 then .swizzle64B
  else if s.width = 4 then .swizzle128B
  else .invalid

/-- `tma_swizzle` in `create_tensor_map`: the swizzle mode actually selected —
derived from the width exactly when the layout tag is `tma_swizzle`, otherwise
`CU_TENSOR_MAP_SWIZZLE_NONE`. -/
def tma_swizzle (s : STDesc) : CUtensorMapSwizzle :=
  if s.layout = .tmaSwizzle then tma_swizzle_from_size s else .swizzleNone

/-- The argument bundle `create_tensor_map` hands to the hardware encode call
`cuTensorMapEncodeTiled`: dimensionality, base address, global shape/stride
arrays, shared-memory shape/stride arrays and the swizzle mode.  The arrays
are the full five- (resp. four-) element C arrays, zero-initialised entries
included. -/
structure EncodeArgs where
  dim : Nat
  global_addr : Nat
  gmem_shape : List Nat
  gmem_stride : List Nat
  smem_shape : List Nat
  smem_stride : List Nat
  swizzle : CUtensorMapSwizzle
deriving DecidableEq, Repr

/-- The argument-assembly portion of `create_tensor_map` (tma.cuh lines
51-125): populates the shape and stride arrays per layout tag and selects
dimensionality and swizzle.  For a non-transferable layout (which the C++
concept rejects at compile time) the arrays keep their zero initialisation. -/
def create_tensor_map_args (s : STDesc) (num_blocks : Nat) (src : Nat) : EncodeArgs :=
  let global_tile_height := num_blocks * s.rows
  let global_tile_width := s.cols
  let shared_tile_height := s.rows
  let shared_tile_width := s.cols
  if st_type_2d_tma_layout s then
    ⟨2, src,
     [global_tile_width, global_tile_height, 0, 0, 0],
     [shared_tile_width * sizeof_bf16, 0, 0, 0],
     [shared_tile_width, shared_tile_height, 0, 0, 0],
     [1, 1, 1, 1, 1],
     tma_swizzle s⟩
  else if st_type_wgmma_row_layout s then
    ⟨5, src,
     [8, 8, 2, global_tile_height / 8, global_tile_width / 16],
     [global_tile_width * sizeof_bf16, 8 * sizeof_bf16,
      8 * global_tile_width * sizeof_bf16, 16 * sizeof_bf16],
     [8, 8, 2, shared_tile_height / 8, shared_tile_width / 16],
     [1, 1, 1, 1, 1],
     tma_swizzle s⟩
  else if st_type_wgmma_col_t_layout s then
    ⟨5, src,
     [8, 8, 2, global_tile_width / 8, global_tile_height / 16],
     [global_tile_width * sizeof_bf16, 8 * global_tile_width * sizeof_bf16,
      8 * sizeof_bf16, 16 * global_tile_width * sizeof_bf16],
     [8, 8, 2, shared_tile_width / 8, shared_tile_height / 16],
     [1, 1, 1, 1, 1],
     tma_swizzle s⟩
  else
    ⟨5, src, [0, 0, 0, 0, 0], [0, 0, 0, 0], [0, 0, 0, 0, 0], [1, 1, 1, 1, 1], tma_swizzle s⟩

/-- The swizzle size used by the swizzle-granule assertion
(`constexpr int swizzle_size = (ST::width) * 32`). -/
def swizzle_size (s : STDesc) : Nat := s.width * 32

/-- The swizzle-granule assertion of `create_tensor_map` (tma.cuh line 153):
the innermost shared-memory row, in bytes, fits in the swizzle granule. -/
def swizzle_granule_fit (s : STDesc) (num_blocks src : Nat) : Bool :=
  decide ((create_tensor_map_args s num_blocks src).smem_shape.getD 0 0 * sizeof_bf16
            ≤ swizzle_size s)

/-- The conjunction of every validation assertion in `create_tensor_map`
(tma.cuh lines 128-154): base-address alignment, global strides multiples of
16 bytes, shared shapes at most 256, innermost shared row a multiple of 16
bytes, shared strides at most 8 with the innermost equal to 1, and — since the
interleave mode is the constant `CU_TENSOR_MAP_INTERLEAVE_NONE` — the
swizzle-granule fit whenever the selected swizzle mode is not
`CU_TENSOR_MAP_SWIZZLE_NONE`. -/
def create_tensor_map_asserts (s : STDesc) (num_blocks : Nat) (src : Nat) : Bool :=
  let a := create_tensor_map_args s num_blocks src
  decide (src % 16 = 0)
  && decide (a.gmem_stride.getD 0 0 % 16 = 0)
  && decide (a.gmem_stride.getD 1 0 % 16 = 0)
  && decide (a.gmem_stride.getD 2 0 % 16 = 0)
  && decide (a.gmem_stride.getD 3 0 % 16 = 0)
  && decide (a.smem_shape.getD 0 0 ≤ 256)
  && decide (a.smem_shape.getD 1 0 ≤ 256)
  && decide (a.smem_shape.getD 2 0 ≤ 256)
  && decide (a.smem_shape.getD 3 0 ≤ 256)
  && decide (a.smem_shape.getD 4 0 ≤ 256)
  && decide (a.smem_shape.getD 0 0 * sizeof_bf16 % 16 = 0)
  && decide (a.smem_stride.getD 0 0 ≤ 8)
  && decide (a.smem_stride.getD 1 0 ≤ 8)
  && decide (a.smem_stride.getD 2 0 ≤ 8)
  && decide (a.smem_stride.getD 3 0 ≤ 8)
  && decide (a.smem_stride.getD 4 0 ≤ 8)
  && decide (a.smem_stride.getD 0 0 = 1)
  && (if tma_swizzle s ≠ .swizzleNone then swizzle_granule_fit s num_blocks src else true)

/-- Coordinate tuple computed by `prefetch` (tma.cuh lines 198-216) from the
tile index: `{crd0, crd1}` for the 2D layouts, `{crd0, ..., crd4}` for the 5D
layouts. -/
def prefetch_coords (s : STDesc) (tile_idx : Nat) : List Nat :=
  if st_type_2d_tma_layout s then
    [0, tile_idx * s.rows]
  else
    [0, 0, 0,
     if st_type_wgmma_row_layout s then tile_idx * (s.rows / 8) else 0,
     if st_type_wgmma_row_layout s then 0 else tile_idx * (s.rows / 16)]

/-- Coordinate tuple computed by `store_async` (tma.cuh lines 248-266) from
the tile index. -/
def store_async_coords (s : STDesc) (tile_idx : Nat) : List Nat :=
  if st_type_2d_tma_layout s then
    [0, tile_idx * s.rows]
  else
    [0, 0, 0,
     if st_type_wgmma_row_layout s then tile_idx * (s.rows / 8) else 0,
     if st_type_wgmma_row_layout s then 0 else tile_idx * (s.rows / 16)]

/-- Coordinate tuple computed by `load_async` (tma.cuh lines 298-316) from the
tile index. -/
def load_async_coords (s : STDesc) (tile_idx : Nat) : List Nat :=
  if st_type_2d_tma_layout s then
    [0, tile_idx * s.rows]
  else
    [0, 0, 0,
     if st_type_wgmma_row_layout s then tile_idx * (s.rows / 8) else 0,
     if st_type_wgmma_row_layout s then 0 else tile_idx * (s.rows / 16)]

/-- Modelled from the spec: `kittens::laneid()` (defined in common.cuh, which
is not part of src/) returns the calling thread's lane index within its
32-lane warp — the "execution group" of the specification. -/
def laneid (tid : Nat) : Nat := tid % 32

/-- The hardware instructions this subsystem can issue, abstracted as the
"device intrinsic" interface of the specification.  Each copy instruction
records the coordinate tuple it is issued with. -/
inductive Instr where
  | prefetchTensor (coords : List Nat)
  | storeTensor (coords : List Nat)
  | loadTensor (coords : List Nat)
  | mbarrierInit (tc : Nat)
  | mbarrierExpectTx (bytes : Nat)
  | commitGroup
  | waitGroup (n : Nat)
  | syncwarp
deriving DecidableEq, Repr

/-- `prefetch` (tma.cuh lines 194-228) as the list of hardware instructions
the calling thread issues: the guard is `threadIdx.x == 0`, so only the thread
with index 0 issues the bulk-prefetch instruction; every other thread issues
nothing. -/
def prefetch (s : STDesc) (tid : Nat) (tile_idx : Nat) : List Instr :=
  if tid = 0 then [.prefetchTensor (prefetch_coords s tile_idx)] else []

/-- `store_async` (tma.cuh lines 243-278) as the list of hardware
instructions the calling thread issues: the guard is `laneid() == 0`. -/
def store_async (s : STDesc) (tid : Nat) (tile_idx : Nat) : List Instr :=
  if laneid tid = 0 then [.storeTensor (store_async_coords s tile_idx)] else []

/-- `load_async` (tma.cuh lines 292-328) as the list of hardware instructions
the calling thread issues: the guard is `laneid() == 0`. -/
def load_async (s : STDesc) (tid : Nat) (tile_idx : Nat) : List Instr :=
  if laneid tid = 0 then [.loadTensor (load_async_coords s tile_idx)] else []

/-- The type argument of `init_barrier`: a shared tile type, the default type
`ducks::default_type`, or any other type (represented by an index).  The
`static_assert` in `init_barrier` accepts only the first two. -/
inductive TypeArg where
  | st (s : STDesc)
  | defaultType
  | otherType (n : Nat)
deriving DecidableEq, Repr

/-- The `static_assert` guard of `init_barrier` (tma.cuh line 364):
`detail::st_type_tma_layout<T> || std::is_same_v<T, ducks::default_type>`.
A type for which this is false is rejected at compile time. -/
def init_barrier_allowed : TypeArg → Bool
  | .st s => st_type_tma_layout s
  | .defaultType => true
  | .otherType _ => false

/-- Modelled from the spec: `sizeof(ST)` for a shared tile holding
`rows × cols` elements of the 2-byte bf16 type (the tile structure definition
lives in types/, outside src/; the spec states the byte budget is the target
tile's size). -/
def sizeofST (s : STDesc) : Nat := s.rows * s.cols * sizeof_bf16

/-- `set_barrier_bytes` (tma.cuh lines 342-350): lane 0 issues the
expect-transaction instruction with the given byte count; other lanes issue
nothing. -/
def set_barrier_bytes (tid : Nat) (bytes : Nat) : List Instr :=
  if laneid tid = 0 then [.mbarrierExpectTx bytes] else []

/-- `init_barrier` (tma.cuh lines 362-376): lane 0 issues the barrier
initialisation with the arrival count `tc`, followed — exactly when the type
argument is a transferable shared tile — by `set_barrier_bytes` with
`sizeof(T)`. -/
def init_barrier (T : TypeArg) (tid : Nat) (tc : Nat) : List Instr :=
  if laneid tid = 0 then
    .mbarrierInit tc ::
      (match T with
       | .st s => if st_type_tma_layout s then set_barrier_bytes tid (sizeofST s) else []
       | _ => [])
  else []

/-- `store_commit_group` (tma.cuh lines 412-416): lane 0 issues the
commit-group instruction. -/
def store_commit_group (tid : Nat) : List Instr :=
  if laneid tid = 0 then [.commitGroup] else []

/-- `store_async_wait<N>` (tma.cuh lines 422-431): every calling thread
issues the bulk wait-group instruction with immediate `N`, followed by
`__syncwarp()`, the intra-warp instruction-ordering fence. -/
def store_async_wait (N : Nat) : List Instr :=
  [.waitGroup N, .syncwarp]

/-- `store_async_wait` at its default template argument `N = 0`. -/
def store_async_wait_default : List Instr := store_async_wait 0

/-- Modelled from the spec: the hardware wait-group instruction blocks until
at most `N` previously committed store groups remain outstanding; its effect
on the count of outstanding groups. -/
def wait_group_outstanding (N outstanding : Nat) : Nat := min outstanding N

/-- Result of the hardware encode call: success, or a failure carrying the
hardware-supplied diagnostic string (as retrieved by `cuGetErrorString`). -/
inductive CUresult where
  | success
  | failure (msg : String)
deriving DecidableEq, Repr

/-- The diagnostic-reporting tail of `create_tensor_map` (tma.cuh lines
176-180): the hardware-supplied error string is sent to the diagnostic sink
exactly when the encode call did not succeed. -/
def create_tensor_map_diagnostic (result : CUresult) : Option String :=
  match result with
  | .success => none
  | .failure msg => some msg

/-- Modelled from the spec: the hardware encode call populates the descriptor
exactly when it returns success; on failure the descriptor is left unusable
(no usable descriptor is produced). -/
def encode_result_descriptor (result : CUresult) (args : EncodeArgs) : Option EncodeArgs :=
  match result with
  | .success => some args
  | .failure _ => none

/-- The per-layout shape ceilings required by the hardware contract: every
shared-memory-side shape entry is at most 256 elements, and for the swizzled
layout the innermost row fits the swizzle granule.  Spelled per layout on the
tile metadata; this is the hypothesis the validation assertions actually
need beyond granularity. -/
def shape_bounds (s : STDesc) : Bool :=
  match s.layout with
  | .naive =>
      decide (s.rows ≤ 256) && decide (s.cols ≤ 256)
  | .tmaSwizzle =>
      decide (s.rows ≤ 256) && decide (s.cols ≤ 256)
        && decide (s.cols * sizeof_bf16 ≤ s.width * 32)
  | .wgmmaRow0b =>
      decide (s.rows / 8 ≤ 256) && decide (s.cols / 16 ≤ 256)
  | .wgmmaColT0b =>
      decide (s.cols / 8 ≤ 256) && decide (s.rows / 16 ≤ 256)
  | .otherLayout _ => false

/-- The position in the coordinate tuple that varies with the tile index:
position 1 for the 2D layouts, 3 for blocked-row, 4 for
blocked-col-transposed. -/
def varying_axis (s : STDesc) : Nat :=
  if st_type_2d_tma_layout s then 1 else if st_type_wgmma_row_layout s then 3 else 4

/-- The extent, along the varying axis, of the shared-memory box one tile
transfer covers: the corresponding shared-shape entry of the descriptor. -/
def tile_extent (s : STDesc) : Nat :=
  (create_tensor_map_args s 1 0).smem_shape.getD (varying_axis s) 0

/-- The half-open range of global indices, along the varying axis, addressed
for tile `i`: it starts at the coordinate the transfer operations compute and
spans one shared-memory box. -/
def tile_region (s : STDesc) (i : Nat) : Set Nat :=
  Set.Ico ((store_async_coords s i).getD (varying_axis s) 0)
    ((store_async_coords s i).getD (varying_axis s) 0 + tile_extent s)

/-- The least number of rows for which the per-tile coordinate step is
nonzero: 1 for the 2D layouts, 8 for blocked-row (which divides rows by 8),
16 for blocked-col-transposed (which divides rows by 16). -/
def rows_lower_bound (s : STDesc) : Nat :=
  if st_type_2d_tma_layout s then 1 else if st_type_wgmma_row_layout s then 8 else 16

/-! ## Claim theorems -/

theorem coords_getD_varying_axis (s : STDesc) (i : Nat)
    (h : st_type_tma_layout s = true) :
    (store_async_coords s i).getD (varying_axis s) 0 = i * tile_extent s ∧
    (load_async_coords s i).getD (varying_axis s) 0 = i * tile_extent s ∧
    (prefetch_coords s i).getD (varying_axis s) 0 = i * tile_extent s := by
  obtain ⟨rows, cols, width, layout⟩ := s
  cases layout <;>
    simp_all [store_async_coords, load_async_coords, prefetch_coords,
      varying_axis, tile_extent, create_tensor_map_args, st_type_tma_layout,
      st_type_2d_tma_layout, st_type_wgmma_row_layout, st_type_wgmma_col_t_layout]

theorem tile_extent_pos (s : STDesc) (ht : st_type_tma_layout s = true)
    (hr : rows_lower_bound s ≤ s.rows) : 1 ≤ tile_extent s := by
  obtain ⟨rows, cols, width, layout⟩ := s
  cases layout <;>
    simp_all [tile_extent, varying_axis, create_tensor_map_args, rows_lower_bound,
      st_type_tma_layout, st_type_2d_tma_layout, st_type_wgmma_row_layout,
      st_type_wgmma_col_t_layout] <;>
    omega

theorem tma_swizzle_from_size_ne_swizzleNone (s : STDesc) :
    tma_swizzle_from_size s ≠ .swizzleNone := by
  unfold tma_swizzle_from_size
  split
  · simp
  · split
    · simp
    · split <;> simp

/-- C1: for every transferable tile type and every tile index `i`, the
coordinate tuple passed to the underlying hardware copy instruction by
`prefetch`, `store_async` and `load_async` is `(0, i·rows)` for the 2D
layouts (naive and swizzled), `(0, 0, 0, i·(rows/8), 0)` for the blocked-row
layout, and `(0, 0, 0, 0, i·(rows/16))` for the blocked-col-transposed
layout, identically across all three operations. -/
theorem tma_coords_formula (s : STDesc) (i : Nat) :
    (st_type_2d_tma_layout s = true →
      prefetch_coords s i = [0, i * s.rows] ∧
      store_async_coords s i = [0, i * s.rows] ∧
      load_async_coords s i = [0, i * s.rows]) ∧
    (st_type_wgmma_row_layout s = true →
      prefetch_coords s i = [0, 0, 0, i * (s.rows / 8), 0] ∧
      store_async_coords s i = [0, 0, 0, i * (s.rows / 8), 0] ∧
      load_async_coords s i = [0, 0, 0, i * (s.rows / 8), 0]) ∧
    (st_type_wgmma_col_t_layout s = true →
      prefetch_coords s i = [0, 0, 0, 0, i * (s.rows / 16)] ∧
      store_async_coords s i = [0, 0, 0, 0, i * (s.rows / 16)] ∧
      load_async_coords s i = [0, 0, 0, 0, i * (s.rows / 16)]) := by
  obtain ⟨rows, cols, width, layout⟩ := s
  cases layout <;>
    simp [prefetch_coords, store_async_coords, load_async_coords,
      st_type_2d_tma_layout, st_type_wgmma_row_layout, st_type_wgmma_col_t_layout]

/-- Witness for `tma_coords_formula` at concrete tiles of every layout,
matching the scenarios of the specification. -/
theorem tma_coords_formula_witness :
    load_async_coords ⟨64, 64, 4, .tmaSwizzle⟩ 2 = [0, 128] ∧
    store_async_coords ⟨128, 256, 16, .wgmmaRow0b⟩ 1 = [0, 0, 0, 16, 0] ∧
    prefetch_coords ⟨64, 64, 4, .wgmmaColT0b⟩ 2 = [0, 0, 0, 0, 8] := by
  refine ⟨?_, ?_, ?_⟩
  · have h := (tma_coords_formula ⟨64, 64, 4, .tmaSwizzle⟩ 2).1 (by decide)
    simpa using h.2.2
  · have h := (tma_coords_formula ⟨128, 256, 16, .wgmmaRow0b⟩ 1).2.1 (by decide)
    simpa using h.2.1
  · have h := (tma_coords_formula ⟨64, 64, 4, .wgmmaColT0b⟩ 2).2.2 (by decide)
    simpa using h.1

/-- C2: `create_tensor_map` assembles the encode-call arguments exactly as
the spec's algorithm states: dimensionality 2 for the 2D layouts and 5
otherwise; global tile height `num_blocks·rows`, global tile width `cols`;
for 2D layouts the global stride is the row byte width and the shared shape
mirrors the tile shape; for the blocked-row layout the shapes are the
5-dimensional decomposition `(8, 8, 2, height/8, width/16)` with strides
computed from the global tile width; for blocked-col-transposed the mirror
decomposition with the height and width roles swapped; and the swizzle mode
is 32B/64B/128B for width 1/2/4 exactly when the layout tag is swizzled-2D,
otherwise none. -/
theorem create_tensor_map_args_spec (s : STDesc) (nb src : Nat) :
    ((create_tensor_map_args s nb src).dim = if st_type_2d_tma_layout s then 2 else 5) ∧
    (st_type_2d_tma_layout s = true →
      (create_tensor_map_args s nb src).gmem_shape = [s.cols, nb * s.rows, 0, 0, 0] ∧
      (create_tensor_map_args s nb src).gmem_stride = [s.cols * sizeof_bf16, 0, 0, 0] ∧
      (create_tensor_map_args s nb src).smem_shape = [s.cols, s.rows, 0, 0, 0]) ∧
    (st_type_wgmma_row_layout s = true →
      (create_tensor_map_args s nb src).gmem_shape
        = [8, 8, 2, nb * s.rows / 8, s.cols / 16] ∧
      (create_tensor_map_args s nb src).gmem_stride
        = [s.cols * sizeof_bf16, 8 * sizeof_bf16, 8 * s.cols * sizeof_bf16,
           16 * sizeof_bf16] ∧
      (create_tensor_map_args s nb src).smem_shape
        = [8, 8, 2, s.rows / 8, s.cols / 16]) ∧
    (st_type_wgmma_col_t_layout s = true →
      (create_tensor_map_args s nb src).gmem_shape
        = [8, 8, 2, s.cols / 8, nb * s.rows / 16] ∧
      (create_tensor_map_args s nb src).gmem_stride
        = [s.cols * sizeof_bf16, 8 * s.cols * sizeof_bf16, 8 * sizeof_bf16,
           16 * s.cols * sizeof_bf16] ∧
      (create_tensor_map_args s nb src).smem_shape
        = [8, 8, 2, s.cols / 8, s.rows / 16]) ∧
    (s.layout = .tmaSwizzle →
      (s.width = 1 → (create_tensor_map_args s nb src).swizzle = .swizzle32B) ∧
      (s.width = 2 → (create_tensor_map_args s nb src).swizzle = .swizzle64B) ∧
      (s.width = 4 → (create_tensor_map_args s nb src).swizzle = .swizzle128B)) ∧
    (s.layout ≠ .tmaSwizzle → (create_tensor_map_args s nb src).swizzle = .swizzleNone) := by
  obtain ⟨rows, cols, width, layout⟩ := s
  cases layout <;>
    simp [create_tensor_map_args, tma_swizzle, tma_swizzle_from_size,
      st_type_2d_tma_layout, st_type_wgmma_row_layout, st_type_wgmma_col_t_layout]
  refine ⟨?_, ?_, ?_⟩ <;> intro hw <;> simp [hw]

/-- Witness for `create_tensor_map_args_spec`: a blocked-row tile with
`rows = 128`, `cols = 256`, replicated twice, and a swizzled-2D tile of
width 4. -/
theorem create_tensor_map_args_spec_witness :
    (create_tensor_map_args ⟨128, 256, 16, .wgmmaRow0b⟩ 2 0).gmem_shape
      = [8, 8, 2, 32, 16] ∧
    (create_tensor_map_args ⟨64, 64, 4, .tmaSwizzle⟩ 4 0).swizzle = .swizzle128B := by
  refine ⟨?_, ?_⟩
  · have h := (create_tensor_map_args_spec ⟨128, 256, 16, .wgmmaRow0b⟩ 2 0).2.2.1 (by decide)
    simpa using h.1
  · exact ((create_tensor_map_args_spec ⟨64, 64, 4, .tmaSwizzle⟩ 4 0).2.2.2.2.1 rfl).2.2 rfl

/-- C3 counterexample: a naive-layout tile with `rows = 512`, `cols = 16` —
both multiples of the 16-element hardware granularity — with `num_blocks = 1`
and a 16-byte-aligned base, still fails descriptor validation: the
shared-memory shape entry `rows = 512` exceeds the 256-element ceiling, so
the claim as stated (construction succeeds for all granularity-respecting
shapes) is false. -/
theorem create_tensor_map_asserts_fail_naive512 :
    (16 ∣ (512 : Nat)) ∧ (16 ∣ (16 : Nat)) ∧ 1 ≤ (1 : Nat) ∧ (0 : Nat) % 16 = 0 ∧
    st_type_tma_layout ⟨512, 16, 1, .naive⟩ = true ∧
    create_tensor_map_asserts ⟨512, 16, 1, .naive⟩ 1 0 = false := by
  decide

/-- C3 (amended): for every transferable tile whose `rows` and `cols` are
multiples of the 16-element hardware granularity AND respect the per-layout
shape ceilings (shared shape entries at most 256 elements; swizzle-granule
fit for the swizzled layout), any `num_blocks ≥ 1` and a 16-byte-aligned
base, every validation assertion of `create_tensor_map` holds, and the
global/shared shape arrays reconstruct the `(num_blocks, rows, cols)` logical
tensor: the global shape entries multiply out to `num_blocks·rows·cols`
elements and the shared shape entries to `rows·cols` elements. -/
theorem create_tensor_map_construction_succeeds (s : STDesc) (nb src : Nat)
    (hr : 16 ∣ s.rows) (hc : 16 ∣ s.cols) (_hnb : 1 ≤ nb) (hsrc : src % 16 = 0)
    (hb : shape_bounds s = true) :
    create_tensor_map_asserts s nb src = true ∧
    ((create_tensor_map_args s nb src).gmem_shape.take
        (create_tensor_map_args s nb src).dim).prod = nb * s.rows * s.cols ∧
    ((create_tensor_map_args s nb src).smem_shape.take
        (create_tensor_map_args s nb src).dim).prod = s.rows * s.cols := by
  obtain ⟨rows, cols, width, layout⟩ := s
  obtain ⟨a, rfl⟩ := hr
  obtain ⟨b, rfl⟩ := hc
  have h1 : nb * (16 * a) / 8 = nb * a * 2 := by
    rw [show nb * (16 * a) = nb * a * 2 * 8 by ring]
    exact Nat.mul_div_cancel _ (by norm_num)
  have h2 : nb * (16 * a) / 16 = nb * a := by
    rw [show nb * (16 * a) = nb * a * 16 by ring]
    exact Nat.mul_div_cancel _ (by norm_num)
  cases layout
  case naive =>
    simp only [shape_bounds, Bool.and_eq_true, decide_eq_true_eq] at hb
    refine ⟨?_, ?_, ?_⟩
    · simp [create_tensor_map_asserts, create_tensor_map_args, tma_swizzle,
        st_type_2d_tma_layout, st_type_wgmma_row_layout, st_type_wgmma_col_t_layout,
        sizeof_bf16]
      omega
    · simp [create_tensor_map_args, st_type_2d_tma_layout, sizeof_bf16]
      ring
    · simp [create_tensor_map_args, st_type_2d_tma_layout, sizeof_bf16]
      ring
  case tmaSwizzle =>
    simp only [shape_bounds, sizeof_bf16, Bool.and_eq_true, decide_eq_true_eq] at hb
    refine ⟨?_, ?_, ?_⟩
    · simp [create_tensor_map_asserts, create_tensor_map_args, tma_swizzle,
        swizzle_granule_fit, swizzle_size, tma_swizzle_from_size_ne_swizzleNone,
        st_type_2d_tma_layout, st_type_wgmma_row_layout, st_type_wgmma_col_t_layout,
        sizeof_bf16]
      omega
    · simp [create_tensor_map_args, st_type_2d_tma_layout, sizeof_bf16]
      ring
    · simp [create_tensor_map_args, st_type_2d_tma_layout, sizeof_bf16]
      ring
  case wgmmaRow0b =>
    simp only [shape_bounds, Bool.and_eq_true, decide_eq_true_eq] at hb
    refine ⟨?_, ?_, ?_⟩
    · simp [create_tensor_map_asserts, create_tensor_map_args, tma_swizzle,
        st_type_2d_tma_layout, st_type_wgmma_row_layout, st_type_wgmma_col_t_layout,
        sizeof_bf16]
      omega
    · simp [create_tensor_map_args, st_type_2d_tma_layout, st_type_wgmma_row_layout,
        sizeof_bf16, h1, Nat.mul_div_cancel_left]
      ring
    · simp [create_tensor_map_args, st_type_2d_tma_layout, st_type_wgmma_row_layout,
        sizeof_bf16]
      ring_nf
      rw [show a * 16 / 8 = a * 2 by omega]
      ring
  case wgmmaColT0b =>
    simp only [shape_bounds, Bool.and_eq_true, decide_eq_true_eq] at hb
    refine ⟨?_, ?_, ?_⟩
    · simp [create_tensor_map_asserts, create_tensor_map_args, tma_swizzle,
        st_type_2d_tma_layout, st_type_wgmma_row_layout, st_type_wgmma_col_t_layout,
        sizeof_bf16]
      omega
    · simp [create_tensor_map_args, st_type_2d_tma_layout, st_type_wgmma_row_layout,
        st_type_wgmma_col_t_layout, sizeof_bf16, h2]
      have h5 : 16 * b / 8 = 2 * b := by omega
      rw [h5]; ring
    · simp [create_tensor_map_args, st_type_2d_tma_layout, st_type_wgmma_row_layout,
        st_type_wgmma_col_t_layout, sizeof_bf16]
      ring_nf
      rw [show b * 16 / 8 = b * 2 by omega]
      ring
  case otherLayout n =>
    simp [shape_bounds] at hb

/-- Witness for `create_tensor_map_construction_succeeds`: a swizzled-2D
64×64 tile of width 4, replicated 4 times, at base address 0. -/
theorem create_tensor_map_construction_succeeds_witness :
    create_tensor_map_asserts ⟨64, 64, 4, .tmaSwizzle⟩ 4 0 = true ∧
    ((create_tensor_map_args ⟨64, 64, 4, .tmaSwizzle⟩ 4 0).gmem_shape.take
        (create_tensor_map_args ⟨64, 64, 4, .tmaSwizzle⟩ 4 0).dim).prod = 4 * 64 * 64 ∧
    ((create_tensor_map_args ⟨64, 64, 4, .tmaSwizzle⟩ 4 0).smem_shape.take
        (create_tensor_map_args ⟨64, 64, 4, .tmaSwizzle⟩ 4 0).dim).prod = 64 * 64 :=
  create_tensor_map_construction_succeeds ⟨64, 64, 4, .tmaSwizzle⟩ 4 0
    (by decide) (by decide) (by decide) (by decide) (by decide)

/-- C4 counterexample: a blocked-col-transposed tile with `rows = 8 ≥ 1`
maps the distinct tile indices 0 and 1 to the same coordinate tuple
`(0,0,0,0,0)` in all three operations (`rows/16 = 0` under integer
division), so the claim's coordinate formulas are not injective for every
transferable tile type with `rows ≥ 1`. -/
theorem tile_coords_alias_rows8 :
    st_type_tma_layout ⟨8, 16, 1, .wgmmaColT0b⟩ = true ∧
    1 ≤ (8 : Nat) ∧ (0 : Nat) ≠ 1 ∧
    store_async_coords ⟨8, 16, 1, .wgmmaColT0b⟩ 0
      = store_async_coords ⟨8, 16, 1, .wgmmaColT0b⟩ 1 ∧
    load_async_coords ⟨8, 16, 1, .wgmmaColT0b⟩ 0
      = load_async_coords ⟨8, 16, 1, .wgmmaColT0b⟩ 1 ∧
    prefetch_coords ⟨8, 16, 1, .wgmmaColT0b⟩ 0
      = prefetch_coords ⟨8, 16, 1, .wgmmaColT0b⟩ 1 := by
  decide

/-- C4 (amended): for every transferable tile type whose rows reach the
layout's coordinate-step granularity (`rows ≥ 1` for the 2D layouts,
`rows ≥ 8` for blocked-row, `rows ≥ 16` for blocked-col-transposed) and all
tile indices `i ≠ j`, the coordinate tuples computed by `store_async`,
`load_async` and `prefetch` differ, and the global regions addressed along
the varying axis — one shared-memory box starting at the computed
coordinate — are disjoint: consecutive tiles do not overlap. -/
theorem tile_regions_disjoint (s : STDesc) (i j : Nat)
    (ht : st_type_tma_layout s = true) (hij : i ≠ j)
    (hr : rows_lower_bound s ≤ s.rows) :
    store_async_coords s i ≠ store_async_coords s j ∧
    load_async_coords s i ≠ load_async_coords s j ∧
    prefetch_coords s i ≠ prefetch_coords s j ∧
    tile_region s i ∩ tile_region s j = ∅ := by
  have hext : 1 ≤ tile_extent s := tile_extent_pos s ht hr
  have hi := coords_getD_varying_axis s i ht
  have hj := coords_getD_varying_axis s j ht
  have hne : i * tile_extent s ≠ j * tile_extent s := by
    intro h
    exact hij (Nat.eq_of_mul_eq_mul_right hext h)
  refine ⟨?_, ?_, ?_, ?_⟩
  · intro h
    exact hne (by rw [← hi.1, ← hj.1, h])
  · intro h
    exact hne (by rw [← hi.2.1, ← hj.2.1, h])
  · intro h
    exact hne (by rw [← hi.2.2, ← hj.2.2, h])
  · rw [Set.eq_empty_iff_forall_not_mem]
    rintro x ⟨⟨hx1, hx2⟩, hx3, hx4⟩
    rw [hi.1] at hx1 hx2
    rw [hj.1] at hx3 hx4
    rcases Nat.lt_or_ge i j with hlt | hge
    · have hstep : i * tile_extent s + tile_extent s ≤ j * tile_extent s := by
        calc i * tile_extent s + tile_extent s = (i + 1) * tile_extent s := by ring
          _ ≤ j * tile_extent s := Nat.mul_le_mul_right _ hlt
      exact absurd hx3 (not_le_of_lt (lt_of_lt_of_le hx2 hstep))
    · have hlt2 : j < i := Nat.lt_of_le_of_ne hge (fun h => hij h.symm)
      have hstep : j * tile_extent s + tile_extent s ≤ i * tile_extent s := by
        calc j * tile_extent s + tile_extent s = (j + 1) * tile_extent s := by ring
          _ ≤ i * tile_extent s := Nat.mul_le_mul_right _ hlt2
      exact absurd hx1 (not_le_of_lt (lt_of_lt_of_le hx4 hstep))

/-- Witness for `tile_regions_disjoint`: a 64-row blocked-col-transposed tile
at indices 0 and 1. -/
theorem tile_regions_disjoint_witness :
    store_async_coords ⟨64, 64, 4, .wgmmaColT0b⟩ 0
      ≠ store_async_coords ⟨64, 64, 4, .wgmmaColT0b⟩ 1 ∧
    load_async_coords ⟨64, 64, 4, .wgmmaColT0b⟩ 0
      ≠ load_async_coords ⟨64, 64, 4, .wgmmaColT0b⟩ 1 ∧
    prefetch_coords ⟨64, 64, 4, .wgmmaColT0b⟩ 0
      ≠ prefetch_coords ⟨64, 64, 4, .wgmmaColT0b⟩ 1 ∧
    tile_region ⟨64, 64, 4, .wgmmaColT0b⟩ 0 ∩ tile_region ⟨64, 64, 4, .wgmmaColT0b⟩ 1 = ∅ :=
  tile_regions_disjoint ⟨64, 64, 4, .wgmmaColT0b⟩ 0 1 (by decide) (by decide) (by decide)

/-- C5: for every swizzled-2D tile whose innermost shared-memory row size in
bytes exceeds the swizzle granule (`width·32` bytes), the swizzle-granule
assertion of `create_tensor_map` is violated, so descriptor validation
rejects the shape at construction time; the shape is passed through to the
argument arrays unmodified (`smem_shape[0] = cols`), never truncated. -/
theorem swizzle_granule_rejected (s : STDesc) (nb src : Nat)
    (hl : s.layout = .tmaSwizzle)
    (hgt : s.cols * sizeof_bf16 > swizzle_size s) :
    swizzle_granule_fit s nb src = false ∧
    create_tensor_map_asserts s nb src = false ∧
    (create_tensor_map_args s nb src).smem_shape.getD 0 0 = s.cols := by
  obtain ⟨rows, cols, width, layout⟩ := s
  have hl2 : layout = STLayout.tmaSwizzle := hl
  subst hl2
  simp only [swizzle_size, sizeof_bf16] at hgt
  have hfit : swizzle_granule_fit ⟨rows, cols, width, .tmaSwizzle⟩ nb src = false := by
    simp [swizzle_granule_fit, create_tensor_map_args, st_type_2d_tma_layout,
      swizzle_size, sizeof_bf16]
    omega
  refine ⟨hfit, ?_, ?_⟩
  · simp [create_tensor_map_asserts, hfit, tma_swizzle,
      tma_swizzle_from_size_ne_swizzleNone]
  · simp [create_tensor_map_args, st_type_2d_tma_layout]

/-- Witness for `swizzle_granule_rejected`: a width-1 swizzled tile with a
64-element (128-byte) row against the 32-byte granule. -/
theorem swizzle_granule_rejected_witness :
    swizzle_granule_fit ⟨16, 64, 1, .tmaSwizzle⟩ 1 0 = false ∧
    create_tensor_map_asserts ⟨16, 64, 1, .tmaSwizzle⟩ 1 0 = false ∧
    (create_tensor_map_args ⟨16, 64, 1, .tmaSwizzle⟩ 1 0).smem_shape.getD 0 0 = 64 :=
  swizzle_granule_rejected ⟨16, 64, 1, .tmaSwizzle⟩ 1 0 rfl (by decide)

/-- C6: each of `prefetch`, `store_async` and `load_async` issues its
hardware instruction from a single designated lane only (the thread with
index 0 for `prefetch`; lane 0 of the warp for `store_async` and
`load_async`): a call from any other lane issues no instruction and leaves
all state unchanged, and within any one warp at most one lane issues. -/
theorem single_lane_issue (s : STDesc) (i t t1 t2 : Nat) :
    (t ≠ 0 → prefetch s t i = []) ∧
    (laneid t ≠ 0 → store_async s t i = [] ∧ load_async s t i = []) ∧
    (t1 / 32 = t2 / 32 → prefetch s t1 i ≠ [] → prefetch s t2 i ≠ [] → t1 = t2) ∧
    (t1 / 32 = t2 / 32 → store_async s t1 i ≠ [] → store_async s t2 i ≠ [] → t1 = t2) ∧
    (t1 / 32 = t2 / 32 → load_async s t1 i ≠ [] → load_async s t2 i ≠ [] → t1 = t2) := by
  refine ⟨?_, ?_, ?_, ?_, ?_⟩
  · intro h
    simp [prefetch, h]
  · intro h
    constructor <;> simp [store_async, load_async, h]
  · intro _ h1 h2
    have e1 : t1 = 0 := by
      by_contra hc
      simp [prefetch, hc] at h1
    have e2 : t2 = 0 := by
      by_contra hc
      simp [prefetch, hc] at h2
    rw [e1, e2]
  · intro hw h1 h2
    have e1 : laneid t1 = 0 := by
      by_contra hc
      simp [store_async, hc] at h1
    have e2 : laneid t2 = 0 := by
      by_contra hc
      simp [store_async, hc] at h2
    unfold laneid at e1 e2
    omega
  · intro hw h1 h2
    have e1 : laneid t1 = 0 := by
      by_contra hc
      simp [load_async, hc] at h1
    have e2 : laneid t2 = 0 := by
      by_contra hc
      simp [load_async, hc] at h2
    unfold laneid at e1 e2
    omega

/-- Witness for `single_lane_issue`: thread 5 issues no prefetch; lane 1 of
the second warp (thread 33) issues neither a store nor a load. -/
theorem single_lane_issue_witness :
    prefetch ⟨64, 64, 4, .naive⟩ 5 0 = [] ∧
    store_async ⟨64, 64, 4, .naive⟩ 33 0 = [] ∧
    load_async ⟨64, 64, 4, .naive⟩ 33 0 = [] := by
  refine ⟨?_, ?_, ?_⟩
  · exact (single_lane_issue ⟨64, 64, 4, .naive⟩ 0 5 0 0).1 (by decide)
  · exact ((single_lane_issue ⟨64, 64, 4, .naive⟩ 0 33 0 0).2.1 (by decide)).1
  · exact ((single_lane_issue ⟨64, 64, 4, .naive⟩ 0 33 0 0).2.1 (by decide)).2

/-- C7: `init_barrier` initialises the barrier with arrival threshold `tc`;
exactly when instantiated with a transferable tile type it additionally sets
the expected-byte budget to `sizeof(T)` through `set_barrier_bytes`; with the
default type it sets no byte budget; and any other type fails the
`static_assert` guard. -/
theorem init_barrier_spec (s : STDesc) (tc tid n : Nat) (hl : laneid tid = 0) :
    (st_type_tma_layout s = true →
      init_barrier (.st s) tid tc
          = .mbarrierInit tc :: set_barrier_bytes tid (sizeofST s) ∧
      init_barrier (.st s) tid tc
          = [.mbarrierInit tc, .mbarrierExpectTx (sizeofST s)]) ∧
    init_barrier .defaultType tid tc = [.mbarrierInit tc] ∧
    init_barrier_allowed (.st s) = st_type_tma_layout s ∧
    init_barrier_allowed .defaultType = true ∧
    init_barrier_allowed (.otherType n) = false := by
  refine ⟨?_, ?_, rfl, rfl, rfl⟩
  · intro h
    constructor <;> simp [init_barrier, set_barrier_bytes, hl, h]
  · simp [init_barrier, hl]

/-- Witness for `init_barrier_spec`: a naive 16×16 tile (512 bytes) at the
designated lane of the second warp (thread 32). -/
theorem init_barrier_spec_witness :
    init_barrier (.st ⟨16, 16, 1, .naive⟩) 32 2
        = [.mbarrierInit 2, .mbarrierExpectTx 512] ∧
    init_barrier .defaultType 32 2 = [.mbarrierInit 2] ∧
    init_barrier_allowed (.otherType 7) = false := by
  have h := init_barrier_spec ⟨16, 16, 1, .naive⟩ 2 32 7 (by decide)
  refine ⟨?_, h.2.1, h.2.2.2.2⟩
  have h2 := (h.1 (by decide)).2
  simpa using h2

/-- C8: when the hardware encode call reports a failure code,
`create_tensor_map` emits the hardware-supplied diagnostic string through the
diagnostic sink and no usable descriptor is produced; a failure is never
silently ignored, and on success no diagnostic is emitted. -/
theorem encode_failure_reported (r : CUresult) (args : EncodeArgs) (msg : String) :
    (create_tensor_map_diagnostic r = none ↔ r = .success) ∧
    (r = .failure msg →
      create_tensor_map_diagnostic r = some msg ∧
      encode_result_descriptor r args = none) ∧
    (r = .success → encode_result_descriptor r args = some args) := by
  refine ⟨?_, ?_, ?_⟩
  · cases r <;> simp [create_tensor_map_diagnostic]
  · rintro rfl
    exact ⟨rfl, rfl⟩
  · rintro rfl
    rfl

/-- Witness for `encode_failure_reported` at a concrete failure result. -/
theorem encode_failure_reported_witness :
    create_tensor_map_diagnostic (.failure "invalid argument") = some "invalid argument" ∧
    encode_result_descriptor (.failure "invalid argument")
        (create_tensor_map_args ⟨64, 64, 4, .naive⟩ 1 0) = none :=
  (encode_failure_reported (.failure "invalid argument")
    (create_tensor_map_args ⟨64, 64, 4, .naive⟩ 1 0) "invalid argument").2.1 rfl

/-- C9: `store_async_wait` with template argument `N` issues the bulk
wait-group instruction with immediate `N` — after which at most `N`
previously committed store groups remain outstanding, the default `N = 0`
meaning all of them have completed — followed by `__syncwarp()`, the full
intra-warp instruction-ordering fence, so subsequent scratch-memory accesses
in the group are ordered after the completed stores. -/
theorem store_async_wait_spec (N outstanding : Nat) :
    store_async_wait N = [.waitGroup N, .syncwarp] ∧
    wait_group_outstanding N outstanding ≤ N ∧
    wait_group_outstanding 0 outstanding = 0 ∧
    store_async_wait_default = store_async_wait 0 :=
  ⟨rfl, min_le_right _ _, Nat.min_zero _, rfl⟩

/-- C10: a swizzled-2D tile whose width is not 1, 2 or 4 is rejected neither
at compile time (it satisfies the transfer concept) nor by the
construction-time assertions (the instance `rows = 16, cols = 48, width = 3`
passes them all); the selected swizzle mode is the out-of-range constant
`CUtensorMapSwizzle(-1)`, which is what reaches the hardware encode call, so
the violation of the width contract can surface only as a runtime encode
failure. -/
theorem invalid_width_swizzle (s : STDesc) (nb src : Nat)
    (hl : s.layout = .tmaSwizzle)
    (h1 : s.width ≠ 1) (h2 : s.width ≠ 2) (h4 : s.width ≠ 4) :
    st_type_tma_layout s = true ∧
    tma_swizzle s = .invalid ∧
    (create_tensor_map_args s nb src).swizzle = .invalid ∧
    create_tensor_map_asserts ⟨16, 48, 3, .tmaSwizzle⟩ 1 0 = true := by
  obtain ⟨rows, cols, width, layout⟩ := s
  have hl2 : layout = STLayout.tmaSwizzle := hl
  subst hl2
  refine ⟨?_, ?_, ?_, by decide⟩
  · simp [st_type_tma_layout, st_type_2d_tma_layout]
  · simp [tma_swizzle, tma_swizzle_from_size, h1, h2, h4]
  · simp [create_tensor_map_args, st_type_2d_tma_layout, tma_swizzle,
      tma_swizzle_from_size, h1, h2, h4]

/-- Witness for `invalid_width_swizzle` at width 3. -/
theorem invalid_width_swizzle_witness :
    st_type_tma_layout ⟨16, 48, 3, .tmaSwizzle⟩ = true ∧
    tma_swizzle ⟨16, 48, 3, .tmaSwizzle⟩ = .invalid ∧
    (create_tensor_map_args ⟨16, 48, 3, .tmaSwizzle⟩ 1 0).swizzle = .invalid ∧
    create_tensor_map_asserts ⟨16, 48, 3, .tmaSwizzle⟩ 1 0 = true :=
  invalid_width_swizzle ⟨16, 48, 3, .tmaSwizzle⟩ 1 0 rfl
    (by decide) (by decide) (by decide)

end ThunderKittens
